import Mathlib

/-!
A shallow embedding of the bouncing-ball physics toy and the scroll-reveal
setup implemented by the repository script.  The embedding follows the
variant that creates the dedicated ball layer (cap 15, ball radius 12,
maximum velocity 35, bounce factor 0.6, cursor magnetism and alpha-mask
collision); the other variant differs only in constants and in omitting
magnetism, masks and rotation.  JavaScript numbers are modelled as real
numbers, DOM element handles as natural-number identifiers, and the
mutable module-level state as explicit records.  Purely visual side
effects (CSS class toggles, squash transforms, fade timers) carry no
physical state and are not represented; the one visually motivated field
that the source does keep on the ball object, rotation, is represented,
except for the Math.random spin transfer inside the ball-ball resolver,
which touches rotation only.
-/

namespace Musa

open scoped Classical

/-- A ball object: the fields of the literal built in spawnBall.  The
fields prevX and prevY are optional because they are first assigned
inside the animation step, and restingStartTime starts out null. -/
structure Ball where
  x : ℝ
  y : ℝ
  vx : ℝ
  vy : ℝ
  prevX : Option ℝ := none
  prevY : Option ℝ := none
  rotation : ℝ := 0
  spinSpeed : ℝ := 0
  active : Bool := true
  stopping : Bool := false
  restingStartTime : Option ℝ := none

/-- Constant gravity from the source. -/
def gravity : ℝ := 0.7

/-- Constant airResistance from the source. -/
def airResistance : ℝ := 0.995

/-- Constant bounceFactor from the source. -/
def bounceFactor : ℝ := 0.6

/-- Constant ballBounceFactor from the source. -/
def ballBounceFactor : ℝ := 0.5

/-- Constant ballRadius from the source. -/
def ballRadius : ℝ := 12

/-- Constant stopVelocity from the source. -/
def stopVelocity : ℝ := 0.15

/-- Constant maxVelocity from the source. -/
def maxVelocity : ℝ := 35

/-- Constant magneticRadius from the source. -/
def magneticRadius : ℝ := 150

/-- Constant magneticStrength from the source. -/
def magneticStrength : ℝ := 0.3

/-- Constant maskAlphaThreshold from the source (alpha bytes are naturals). -/
def maskAlphaThreshold : ℕ := 10

/-- Constant maxBalls from the source (15 in the embedded variant,
20 in the other). -/
def maxBalls : ℕ := 15

/-- Math.sqrt of x*x + y*y, the expression the source uses for speeds,
distances and Math.hypot. -/
noncomputable def vecNorm (x y : ℝ) : ℝ := Real.sqrt (x * x + y * y)

/-- The JavaScript expression x || d for nonnegative numbers: d when x
is zero, otherwise x. -/
noncomputable def jsOr (x d : ℝ) : ℝ := if x = 0 then d else x

/-- The module state closed over by the animation callbacks: the balls
array, the animating flag and the lastTime timestamp. -/
structure AnimState where
  balls : List Ball
  animating : Bool
  lastTime : ℝ

/-- cleanupBalls: while the ball count strictly exceeds maxBalls, shift
the oldest ball off the front of the array (the shifted entry is also the
element removed from the document). -/
def cleanupBalls (bs : List Ball) : List Ball :=
  if _h : bs.length > maxBalls then cleanupBalls bs.tail else bs
termination_by bs.length
decreasing_by
  simp only [List.length_tail]
  omega

/-- spawnBall x y vx vy: clean up, then push a fresh ball whose velocity
jitter, initial rotation and spin speed come from the four Math.random
draws r1, r2, r3 and r4, and make sure the loop is running.  Returns the
new state together with whether a new animation frame was requested.
The variant argument of the source only toggles CSS classes. -/
def spawnBall (st : AnimState) (x y vx vy : ℝ) (r1 r2 r3 r4 : ℝ) :
    AnimState × Bool :=
  let bs := cleanupBalls st.balls
  let b : Ball :=
    { x := x
      y := y
      vx := vx + (r1 - 0.5) * 6
      vy := vy + (r2 - 0.5) * 4
      rotation := r3 * 360
      spinSpeed := (r4 - 0.5) * 10
      active := true
      stopping := false }
  ({ balls := bs ++ [b], animating := true, lastTime := st.lastTime },
   !st.animating)

/-- The reveal bookkeeping: which elements carry the revealed class and
which ones the IntersectionObserver is currently observing. -/
structure RevealState where
  revealed : List ℕ
  observed : List ℕ

/-- classList.add: appending is a no-op when the class is present. -/
def classAdd (l : List ℕ) (e : ℕ) : List ℕ := if e ∈ l then l else l ++ [e]

/-- Page initialization for the data-reveal elements: every element is
handed to revealObserver.observe, and when the reduced-motion media query
matches every element additionally receives the revealed class. -/
def revealInit (reducedMotion : Bool) (els : List ℕ) : RevealState :=
  { observed := els
    revealed := if reducedMotion then els.foldl classAdd [] else [] }

/-- The IntersectionObserver callback: every intersecting entry receives
the revealed class and is unobserved. -/
def revealFire (st : RevealState) (entries : List (ℕ × Bool)) : RevealState :=
  entries.foldl
    (fun s e =>
      if e.2 then
        { revealed := classAdd s.revealed e.1, observed := s.observed.erase e.1 }
      else s)
    st

/-- The result of getBoundingClientRect for an element, with the derived
right and bottom edges below. -/
structure DOMRect where
  left : ℝ
  top : ℝ
  width : ℝ
  height : ℝ

def DOMRect.right (r : DOMRect) : ℝ := r.left + r.width

def DOMRect.bottom (r : DOMRect) : ℝ := r.top + r.height

/-- A rectangular obstacle as pushed by getObstacles. -/
structure RectObstacle where
  left : ℝ
  right : ℝ
  top : ℝ
  bottom : ℝ

/-- The body of the forEach over data-ball-obstacle elements in
getObstacles: the two early returns become none and the push becomes
some.  Viewport coordinates, as in the fixed-position variant. -/
noncomputable def mkRectObstacle (rect : DOMRect) : Option RectObstacle :=
  if rect.width < 6 ∨ rect.height < 6 then none
  else
    let insetX := min 10 (rect.width * 0.08)
    let insetY := min 10 (rect.height * 0.12)
    let left := rect.left + insetX
    let right := rect.right - insetX
    let top := rect.top + insetY
    let bottom := rect.bottom - insetY
    if right - left < 4 ∨ bottom - top < 4 then none
    else some { left := left, right := right, top := top, bottom := bottom }

/-- The rectangle part of getObstacles: the resulting list keeps the
document order of the scanned elements.  The mask-backed obstacles are
appended after all rectangles by the source; they are modelled by the
separate mask definitions below and threaded through the Obstacle sum
type. -/
noncomputable def getObstacles (rects : List DOMRect) : List RectObstacle :=
  rects.filterMap mkRectObstacle

/-- checkRectCollision: axis-aligned overlap test, directional
penetrations, reposition along the axis of smaller minimum penetration
and reflect the corresponding velocity component, snapping it to zero
below stopVelocity.  The impact and squash class effects of the source
are visual only; the deterministic rotation update of the side-collision
branch is kept.  Returns the updated ball with the hit flag. -/
noncomputable def checkRectCollision (b : Ball) (obs : RectObstacle) :
    Ball × Bool :=
  let ballLeft := b.x - ballRadius
  let ballRight := b.x + ballRadius
  let ballTop := b.y - ballRadius
  let ballBottom := b.y + ballRadius
  if ballRight > obs.left ∧ ballLeft < obs.right ∧
      ballBottom > obs.top ∧ ballTop < obs.bottom then
    let overlapLeft := ballRight - obs.left
    let overlapRight := obs.right - ballLeft
    let overlapTop := ballBottom - obs.top
    let overlapBottom := obs.bottom - ballTop
    let minOverlapX := min overlapLeft overlapRight
    let minOverlapY := min overlapTop overlapBottom
    if minOverlapX < minOverlapY then
      let b1 :=
        if overlapLeft < overlapRight then
          { b with x := obs.left - ballRadius, vx := -|b.vx| * bounceFactor }
        else
          { b with x := obs.right + ballRadius, vx := |b.vx| * bounceFactor }
      let b2 := if |b1.vx| < stopVelocity then { b1 with vx := 0 } else b1
      ({ b2 with rotation := b2.rotation + b2.vx * 2 }, true)
    else
      let b1 :=
        if overlapTop < overlapBottom then
          { b with y := obs.top - ballRadius, vy := -|b.vy| * bounceFactor }
        else
          { b with y := obs.bottom + ballRadius, vy := |b.vy| * bounceFactor }
      let b2 := if |b1.vy| < stopVelocity then { b1 with vy := 0 } else b1
      (b2, true)
  else (b, false)

/-- resolveBallCollision: circle overlap test at combined radius
ballRadius * 2, zero distance bumped to 0.01, symmetric 50/50 positional
separation along the center line, and a restitution impulse that is
skipped when the pair already separates along the normal.  The
Math.random spin transfer of the source changes rotation only and is
omitted.  Returns the updated pair. -/
noncomputable def resolveBallCollision (a b : Ball) : Ball × Ball :=
  let dx := b.x - a.x
  let dy := b.y - a.y
  let minDist := ballRadius * 2
  let dist0 := vecNorm dx dy
  let dist := if dist0 = 0 then 0.01 else dist0
  if dist < minDist then
    let nx := dx / dist
    let ny := dy / dist
    let overlap := minDist - dist
    let separation := overlap / 2
    let a1 := { a with x := a.x - nx * separation, y := a.y - ny * separation }
    let b1 := { b with x := b.x + nx * separation, y := b.y + ny * separation }
    let rvx := b1.vx - a1.vx
    let rvy := b1.vy - a1.vy
    let velAlongNormal := rvx * nx + rvy * ny
    if velAlongNormal > 0 then (a1, b1)
    else
      let impulse := -(1 + ballBounceFactor) * velAlongNormal / 2
      let ix := impulse * nx
      let iy := impulse * ny
      ({ a1 with vx := a1.vx - ix, vy := a1.vy - iy },
       { b1 with vx := b1.vx + ix, vy := b1.vy + iy })
  else (a, b)

/-- clampVelocity: uniform rescale of the velocity to maxVelocity when
the speed exceeds it.  The high-velocity and resting class toggles of
the source are visual only. -/
noncomputable def clampVelocity (b : Ball) : Ball :=
  let speed := vecNorm b.vx b.vy
  if speed > maxVelocity then
    let scale := maxVelocity / speed
    { b with vx := b.vx * scale, vy := b.vy * scale }
  else b

/-- applyCursorMagnetism: inside the magnetic radius and above the
squared minimum distance 25, attract the ball toward the cursor with
force (1 - distance / magneticRadius) * magneticStrength, damped by 0.8.
The source expresses the direction with Math.cos (Math.atan2 dy dx) and
Math.sin (Math.atan2 dy dx), which equal dx / distance and dy / distance
because distance is positive in this branch. -/
noncomputable def applyCursorMagnetism (mouse : ℝ × ℝ) (b : Ball) : Ball :=
  let dx := mouse.1 - b.x
  let dy := mouse.2 - b.y
  let distanceSq := dx * dx + dy * dy
  let magneticRadiusSq := magneticRadius * magneticRadius
  if distanceSq < magneticRadiusSq ∧ distanceSq > 25 then
    let distance := Real.sqrt distanceSq
    let force := (1 - distance / magneticRadius) * magneticStrength
    let forceX := dx / distance * force
    let forceY := dy / distance * force
    { b with vx := b.vx + forceX * 0.8, vy := b.vy + forceY * 0.8 }
  else b

/-- A cached alpha mask: natural pixel dimensions and the RGBA byte
array of the offscreen canvas, modelled as a byte lookup indexed the way
the source indexes it, namely (row * width + column) * 4 + 3 for the
alpha channel. -/
structure Mask where
  width : ℕ
  height : ℕ
  data : ℤ → ℕ

/-- A mask obstacle: viewport bounds, on-screen size and the cached mask. -/
structure MaskObstacle where
  left : ℝ
  right : ℝ
  top : ℝ
  bottom : ℝ
  width : ℝ
  height : ℝ
  mask : Mask

/-- The sample column of checkMaskCollision: the ball center mapped into
mask pixel space, floored and clamped into range. -/
noncomputable def maskSampleX (b : Ball) (obs : MaskObstacle) : ℤ :=
  max 0 (min ((obs.mask.width : ℤ) - 1)
    (Int.floor ((b.x - obs.left) / obs.width * (obs.mask.width : ℝ))))

/-- The sample row of checkMaskCollision, clamped like the column. -/
noncomputable def maskSampleY (b : Ball) (obs : MaskObstacle) : ℤ :=
  max 0 (min ((obs.mask.height : ℤ) - 1)
    (Int.floor ((b.y - obs.top) / obs.height * (obs.mask.height : ℝ))))

/-- The alpha byte at a sample position, using the alpha index formula
of the source. -/
def maskAlphaAt (m : Mask) (sx sy : ℤ) : ℕ :=
  m.data ((sy * m.width + sx) * 4 + 3)

/-- The sampleOpaque helper of checkMaskCollision: 1 when the alpha at
the clamped offset position exceeds the threshold, else 0. -/
def sampleOpacity (m : Mask) (sX sY dx dy : ℤ) : ℤ :=
  let ix := max 0 (min ((m.width : ℤ) - 1) (sX + dx))
  let iy := max 0 (min ((m.height : ℤ) - 1) (sY + dy))
  if maskAlphaThreshold < m.data ((iy * m.width + ix) * 4 + 3) then 1 else 0

/-- The collision normal of checkMaskCollision: central difference of
opacity in the four cardinal directions, falling back to the velocity
direction divided by Math.hypot vx vy (with the || 1 guard) when both
components are zero, then normalized by its own guarded length. -/
noncomputable def maskNormal (b : Ball) (m : Mask) (sX sY : ℤ) : ℝ × ℝ :=
  let nx0 : ℝ := ((sampleOpacity m sX sY 1 0 - sampleOpacity m sX sY (-1) 0 : ℤ) : ℝ)
  let ny0 : ℝ := ((sampleOpacity m sX sY 0 1 - sampleOpacity m sX sY 0 (-1) : ℤ) : ℝ)
  let p :=
    if nx0 = 0 ∧ ny0 = 0 then
      let speed := jsOr (vecNorm b.vx b.vy) 1
      (b.vx / speed, b.vy / speed)
    else (nx0, ny0)
  let nLen := jsOr (vecNorm p.1 p.2) 1
  (p.1 / nLen, p.2 / nLen)

/-- checkMaskCollision: bounding-box rejection, local-coordinate
rejection, alpha threshold test, then reflection of the velocity about
the estimated normal scaled by bounceFactor, and position rollback to
the previous frame (the ?? fallback keeps the current position when no
previous one was recorded).  The impact class effect is visual only. -/
noncomputable def checkMaskCollision (b : Ball) (obs : MaskObstacle) :
    Ball × Bool :=
  if b.x + ballRadius < obs.left ∨ b.x - ballRadius > obs.right ∨
      b.y + ballRadius < obs.top ∨ b.y - ballRadius > obs.bottom then
    (b, false)
  else
    let localX := b.x - obs.left
    let localY := b.y - obs.top
    if localX < 0 ∨ localY < 0 ∨ localX > obs.width ∨ localY > obs.height then
      (b, false)
    else
      let sX := maskSampleX b obs
      let sY := maskSampleY b obs
      if maskAlphaAt obs.mask sX sY ≤ maskAlphaThreshold then (b, false)
      else
        let n := maskNormal b obs.mask sX sY
        let vDot := b.vx * n.1 + b.vy * n.2
        ({ b with
            vx := (b.vx - 2 * vDot * n.1) * bounceFactor
            vy := (b.vy - 2 * vDot * n.2) * bounceFactor
            x := b.prevX.getD b.x
            y := b.prevY.getD b.y }, true)

/-- The obstacle sum type of the source, dispatched on the type tag. -/
inductive Obstacle where
  | rect : RectObstacle → Obstacle
  | mask : MaskObstacle → Obstacle

/-- The per-ball body of the first forEach in animateAll: record the
previous position, cursor magnetism, gravity, air resistance raised to
the deltaTime power, velocity clamp, position integration and rotation
accumulation.  The source guards rotation with (rotation || 0); rotation
is always a number here, and the guard maps 0 to 0. -/
noncomputable def stepBall (mouse : ℝ × ℝ) (dt : ℝ) (b : Ball) : Ball :=
  let b0 := { b with prevX := some b.x, prevY := some b.y }
  let b1 := applyCursorMagnetism mouse b0
  let b2 := { b1 with vy := b1.vy + gravity * dt }
  let b3 := { b2 with vx := b2.vx * airResistance ^ dt,
                      vy := b2.vy * airResistance ^ dt }
  let b4 := clampVelocity b3
  let b5 := { b4 with x := b4.x + b4.vx * dt, y := b4.y + b4.vy * dt }
  { b5 with rotation := b5.rotation + (b5.vx * 0.5 + b5.spinSpeed) * dt }

/-- The inner obstacle loop of animateAll: fold the collision checks
over the obstacle list in order, rectangles dispatched to
checkRectCollision and masks to checkMaskCollision. -/
noncomputable def collideObstacles (obstacles : List Obstacle) (b : Ball) : Ball :=
  obstacles.foldl
    (fun cur obs =>
      match obs with
      | Obstacle.rect r => (checkRectCollision cur r).1
      | Obstacle.mask m => (checkMaskCollision cur m).1)
    b

/-- The index pairs (i, j) with i < j < n, in the order of the nested
ball-ball loops. -/
def pairIndices (n : ℕ) : List (ℕ × ℕ) :=
  (List.range n).flatMap fun i => ((List.range n).drop (i + 1)).map fun j => (i, j)

/-- One iteration of the inner ball-ball loop: resolve the pair at the
two indices when both balls are active.  The source checks the activity
of the outer ball before entering the inner loop; resolution never
changes the active flag, so checking both per pair is equivalent. -/
noncomputable def resolvePairAt (bs : List Ball) (i j : ℕ) : List Ball :=
  match bs.get? i, bs.get? j with
  | some a, some b =>
    if a.active ∧ b.active then
      let r := resolveBallCollision a b
      (bs.set i r.1).set j r.2
    else bs
  | _, _ => bs

/-- The ball-ball collision pass of animateAll. -/
noncomputable def ballBallPass (bs : List Ball) : List Ball :=
  (pairIndices bs.length).foldl (fun l p => resolvePairAt l p.1 p.2) bs

/-- The left wall block of the final forEach of animateAll: reposition
to the wall, reflect with the bounce factor, snap below stopVelocity. -/
noncomputable def wallLeft (b : Ball) : Ball :=
  if b.x - ballRadius < 0 then
    let c := { b with x := ballRadius, vx := |b.vx| * bounceFactor }
    if |c.vx| < stopVelocity then { c with vx := 0 } else c
  else b

/-- The right wall block of the final forEach. -/
noncomputable def wallRight (docWidth : ℝ) (b : Ball) : Ball :=
  if b.x + ballRadius > docWidth then
    let c := { b with x := docWidth - ballRadius, vx := -|b.vx| * bounceFactor }
    if |c.vx| < stopVelocity then { c with vx := 0 } else c
  else b

/-- The ceiling block of the final forEach. -/
noncomputable def ceilingPass (b : Ball) : Ball :=
  if b.y - ballRadius < 0 then
    let c := { b with y := ballRadius, vy := |b.vy| * bounceFactor }
    if |c.vy| < stopVelocity then { c with vy := 0 } else c
  else b

/-- The tail of the final forEach: off-screen removal past docHeight +
200 (whose early return skips the floor logic), then the floor bounce
with the 3000 millisecond resting-timeout removal, and the clearing of
the resting timestamp away from the floor.  The style writes, squash
transform and fade-out timer are visual only.  The falsy test on
restingStartTime accepts both null and 0. -/
noncomputable def floorPass (docHeight currentTime : ℝ) (b : Ball) : Ball :=
  if b.y > docHeight + 200 then { b with active := false }
  else if b.y + ballRadius > docHeight then
    let c0 := { b with y := docHeight - ballRadius, vy := -|b.vy| * bounceFactor }
    let c1 := if |c0.vy| < stopVelocity then { c0 with vy := 0 } else c0
    if |c1.vx| < stopVelocity ∧ |c1.vy| < stopVelocity then
      match c1.restingStartTime with
      | none => { c1 with restingStartTime := some currentTime }
      | some t =>
        if t = 0 then { c1 with restingStartTime := some currentTime }
        else if currentTime - t > 3000 then { c1 with active := false }
        else c1
    else { c1 with restingStartTime := none }
  else { b with restingStartTime := none }

/-- The final forEach of animateAll, composing its four sequential
blocks in source order. -/
noncomputable def wallsPass (docWidth docHeight currentTime : ℝ) (b : Ball) : Ball :=
  floorPass docHeight currentTime (ceilingPass (wallRight docWidth (wallLeft b)))

/-- The physics phases of one animateAll invocation on a nonempty ball
list, in source order: per-ball update, obstacle collisions, ball-ball
collisions, walls and floor, then splicing out inactive balls. -/
noncomputable def stepBalls (balls : List Ball) (dt : ℝ) (mouse : ℝ × ℝ)
    (obstacles : List Obstacle) (docWidth docHeight currentTime : ℝ) :
    List Ball :=
  let bs1 := balls.map fun b => if b.active then stepBall mouse dt b else b
  let bs2 := bs1.map fun b => if b.active then collideObstacles obstacles b else b
  let bs3 := ballBallPass bs2
  let bs4 := bs3.map fun b =>
    if b.active then wallsPass docWidth docHeight currentTime b else b
  bs4.filter fun b => b.active

/-- animateAll as a transition on the module state: an empty ball list
stops the loop and resets lastTime; otherwise the delta time is computed
from lastTime (first frames start from the current timestamp), the
physics phases run, and a follow-up frame is requested exactly when an
active ball remains.  The obstacle list stands for the 100 millisecond
obstacle cache, which only affects which geometry is passed in.  The
returned flag records whether requestAnimationFrame was called. -/
noncomputable def animateAll (st : AnimState) (currentTime : ℝ)
    (mouse : ℝ × ℝ) (obstacles : List Obstacle) (docWidth docHeight : ℝ) :
    AnimState × Bool :=
  if st.balls.length = 0 then
    ({ st with animating := false, lastTime := 0 }, false)
  else
    let lt := if st.lastTime = 0 then currentTime else st.lastTime
    let dt := min ((currentTime - lt) / 16.67) 2
    let bs := stepBalls st.balls dt mouse obstacles docWidth docHeight currentTime
    if bs.any fun b => b.active then
      ({ balls := bs, animating := st.animating, lastTime := currentTime }, true)
    else
      ({ balls := bs, animating := false, lastTime := currentTime }, false)

/-! Helper lemmas about square roots and the derived vector norm. -/

lemma sqrt_eval {a c : ℝ} (hc : 0 ≤ c) (h : c * c = a) : Real.sqrt a = c := by
  rw [← h, Real.sqrt_mul_self hc]

lemma vecNorm_eval {x y c : ℝ} (hc : 0 ≤ c) (h : c * c = x * x + y * y) :
    vecNorm x y = c := by
  rw [vecNorm]; exact sqrt_eval hc h

lemma vecNorm_nonneg (x y : ℝ) : 0 ≤ vecNorm x y := Real.sqrt_nonneg _

lemma vecNorm_mul_right (x y c : ℝ) :
    vecNorm (x * c) (y * c) = |c| * vecNorm x y := by
  rw [vecNorm, vecNorm,
    show x * c * (x * c) + y * c * (y * c) = c ^ 2 * (x * x + y * y) by ring,
    Real.sqrt_mul (sq_nonneg c), Real.sqrt_sq_eq_abs]

lemma vecNorm_self_mul (x y : ℝ) : vecNorm x y * vecNorm x y = x * x + y * y :=
  Real.mul_self_sqrt (add_nonneg (mul_self_nonneg x) (mul_self_nonneg y))

lemma vecNorm_zero : vecNorm 0 0 = 0 := by
  rw [vecNorm]
  norm_num

/-! Helper lemmas about the cleanup loop and the class-list fold. -/

lemma cleanupBalls_length_le (bs : List Ball) :
    (cleanupBalls bs).length ≤ maxBalls := by
  induction bs using cleanupBalls.induct with
  | case1 bs h ih => rw [cleanupBalls, dif_pos h]; exact ih
  | case2 bs h => rw [cleanupBalls, dif_neg h]; omega

lemma mem_foldl_classAdd (l acc : List ℕ) (e : ℕ) (h : e ∈ acc ∨ e ∈ l) :
    e ∈ l.foldl classAdd acc := by
  induction l generalizing acc with
  | nil => simpa using h
  | cons x xs ih =>
    rw [List.foldl_cons]
    apply ih
    rcases h with h | h
    · left
      unfold classAdd
      split
      · exact h
      · exact List.mem_append_left _ h
    · rcases List.mem_cons.mp h with h | h
      · subst h
        left
        unfold classAdd
        split
        · assumption
        · simp
      · exact Or.inr h

/-! C1: the spawn-time ball cap. -/

/-- An inert ball used to build concrete states. -/
def idleBall : Ball := { x := 0, y := 0, vx := 0, vy := 0 }

/-- A state already holding exactly maxBalls tracked balls. -/
def c1State : AnimState :=
  { balls := List.replicate 15 idleBall, animating := false, lastTime := 0 }

/-- C1 counterexample: spawning while the collection is exactly at the
cap evicts nothing, because cleanupBalls only shifts while the count
strictly exceeds maxBalls, so the count right after this spawn is 16,
above the cap of 15. -/
theorem C1_counterexample :
    ¬ ((spawnBall c1State 100 100 0 2 0.5 0.5 0.5 0.5).1.balls.length ≤ maxBalls) := by
  have hclean : cleanupBalls (List.replicate 15 idleBall) = List.replicate 15 idleBall := by
    rw [cleanupBalls, dif_neg (by simp [maxBalls])]
  simp only [spawnBall, c1State, hclean, List.length_append, List.length_replicate,
    List.length_cons, List.length_nil, maxBalls]
  omega

/-- C1 amended: a spawn first runs cleanupBalls, which shifts oldest
balls from the front only while the count strictly exceeds maxBalls and
therefore leaves at most maxBalls balls; pushing the new ball then gives
at most maxBalls + 1 tracked balls after any spawn (the cap itself can
be exceeded by exactly one, as the counterexample shows). -/
theorem C1_spawn_cap_plus_one (st : AnimState) (x y vx vy r1 r2 r3 r4 : ℝ) :
    ((spawnBall st x y vx vy r1 r2 r3 r4).1.balls).length ≤ maxBalls + 1 := by
  have h := cleanupBalls_length_le st.balls
  simp only [spawnBall, List.length_append, List.length_cons, List.length_nil]
  omega

/-! C8: scroll reveal under the reduced-motion preference. -/

/-- C8 counterexample: with the reduced-motion preference active the
initialization still observes every flagged element (here element 5), so
the observer is armed and its callback does fire for the element on a
later intersection, unobserving it then; the claim says no observer ever
fires for those elements. -/
theorem C8_counterexample :
    (revealInit true [5]).observed = [5] ∧ ([5] : List ℕ) ≠ [] ∧
    revealFire (revealInit true [5]) [(5, true)] =
      { revealed := [5], observed := [] } := by
  refine ⟨rfl, by simp, ?_⟩
  simp [revealFire, revealInit, classAdd]

/-- C8 amended: with the reduced-motion preference active at
initialization, every flagged element is marked revealed immediately,
but every flagged element is nevertheless still observed, so the
intersection observer can subsequently fire for it (the later add of the
revealed class is an idempotent no-op). -/
theorem C8_reduced_motion_reveal (els : List ℕ) :
    (revealInit true els).observed = els ∧
    ∀ e ∈ els, e ∈ (revealInit true els).revealed := by
  refine ⟨rfl, fun e he => ?_⟩
  simp only [revealInit, if_true]
  exact mem_foldl_classAdd els [] e (Or.inr he)

/-- C8 witness: the amended statement evaluated on the one-element page. -/
theorem C8_witness : 5 ∈ (revealInit true [5]).revealed :=
  (C8_reduced_motion_reveal [5]).2 5 (by simp)

/-! C9: the obstacle inset and the size floor. -/

/-- A thin marked element: 6 pixels wide, 100 pixels tall. -/
def c9ThinRect : DOMRect := { left := 0, top := 0, width := 6, height := 100 }

/-- C9 counterexample: the 6 by 100 element passes the pre-inset floor
(6 in both dimensions) and the post-inset floor (4 in both dimensions),
so it is returned even though its post-inset width is 5.04, smaller than
the 6-pixel floor the claim asserts for every returned obstacle. -/
theorem C9_counterexample :
    getObstacles [c9ThinRect] =
      [{ left := 0.48, right := 5.52, top := 10, bottom := 90 }] ∧
    (5.52 : ℝ) - 0.48 < 6 := by
  constructor
  · simp only [getObstacles, List.filterMap, mkRectObstacle, c9ThinRect,
      DOMRect.right, DOMRect.bottom]
    norm_num [min_def]
  · norm_num

/-- C9 amended: getObstacles discards an element when its pre-inset
width or height is below 6, or when its post-inset width or height is
below 4; hence every returned rectangular obstacle has post-inset width
and height at least 4 (not 6 by 4: a kept obstacle may be narrower than
6, as the counterexample shows). -/
theorem C9_obstacle_floor (rects : List DOMRect) (o : RectObstacle)
    (ho : o ∈ getObstacles rects) :
    4 ≤ o.right - o.left ∧ 4 ≤ o.bottom - o.top := by
  rw [getObstacles, List.mem_filterMap] at ho
  obtain ⟨r, _hr, hmk⟩ := ho
  simp only [mkRectObstacle] at hmk
  split_ifs at hmk with h1 h2
  · rw [Option.some_inj] at hmk
    subst hmk
    push_neg at h2
    refine ⟨?_, ?_⟩
    · simpa using h2.1
    · simpa using h2.2

/-- The 100 by 100 element used for the C9 witness. -/
def c9Rect : DOMRect := { left := 0, top := 0, width := 100, height := 100 }

/-- The obstacle getObstacles derives from c9Rect. -/
def c9Obstacle : RectObstacle := { left := 8, right := 92, top := 10, bottom := 90 }

/-- C9 witness: the amended floor evaluated on the concrete obstacle. -/
theorem C9_witness :
    c9Obstacle ∈ getObstacles [c9Rect] ∧
    4 ≤ c9Obstacle.right - c9Obstacle.left ∧
    4 ≤ c9Obstacle.bottom - c9Obstacle.top := by
  have hm : c9Obstacle ∈ getObstacles [c9Rect] := by
    simp only [getObstacles, List.filterMap, mkRectObstacle, c9Rect, c9Obstacle,
      DOMRect.right, DOMRect.bottom]
    norm_num [min_def]
  exact ⟨hm, C9_obstacle_floor [c9Rect] c9Obstacle hm⟩

/-! C4: the axis choice of the rectangle collision resolver. -/

/-- The obstacle rectangle used for the C4 scenarios. -/
def c4Obs : RectObstacle := { left := 100, right := 300, top := 100, bottom := 300 }

/-- A ball overlapping the top-left corner of c4Obs with exactly equal
minimum penetrations on both axes (7 pixels each). -/
def c4Ball : Ball := { x := 95, y := 95, vx := 3, vy := 4 }

/-- C4 counterexample: with the horizontal and vertical minimum
penetrations exactly equal, the source comparison minOverlapX <
minOverlapY is false, so the else branch runs and the ball is
repositioned along the Y axis (y becomes 88, x stays 95); the claim says
the X axis wins ties. -/
theorem C4_counterexample :
    min (c4Ball.x + ballRadius - c4Obs.left) (c4Obs.right - (c4Ball.x - ballRadius)) =
      min (c4Ball.y + ballRadius - c4Obs.top) (c4Obs.bottom - (c4Ball.y - ballRadius)) ∧
    (checkRectCollision c4Ball c4Obs).1.x = c4Ball.x ∧
    (checkRectCollision c4Ball c4Obs).1.y ≠ c4Ball.y := by
  refine ⟨by norm_num [c4Ball, c4Obs, ballRadius, min_def], ?_, ?_⟩ <;>
  · simp only [checkRectCollision, c4Ball, c4Obs, ballRadius, stopVelocity, bounceFactor]
    norm_num [min_def, abs_of_nonneg, abs_of_nonpos]

/-- C4 amended: the resolver picks the X axis exactly when the minimum
horizontal penetration is strictly smaller than the vertical one, and
the Y axis when the vertical minimum is smaller or equal, so the Y axis
(not the X axis) wins ties; the chosen axis keeps the other coordinate
and its velocity component unchanged and snaps the ball flush to the
corresponding edge. -/
theorem C4_resolution_axis (b : Ball) (obs : RectObstacle)
    (hov : b.x + ballRadius > obs.left ∧ b.x - ballRadius < obs.right ∧
      b.y + ballRadius > obs.top ∧ b.y - ballRadius < obs.bottom) :
    (min (b.x + ballRadius - obs.left) (obs.right - (b.x - ballRadius)) <
        min (b.y + ballRadius - obs.top) (obs.bottom - (b.y - ballRadius)) →
      (checkRectCollision b obs).1.y = b.y ∧
      (checkRectCollision b obs).1.vy = b.vy ∧
      ((checkRectCollision b obs).1.x = obs.left - ballRadius ∨
        (checkRectCollision b obs).1.x = obs.right + ballRadius)) ∧
    (min (b.y + ballRadius - obs.top) (obs.bottom - (b.y - ballRadius)) ≤
        min (b.x + ballRadius - obs.left) (obs.right - (b.x - ballRadius)) →
      (checkRectCollision b obs).1.x = b.x ∧
      (checkRectCollision b obs).1.vx = b.vx ∧
      ((checkRectCollision b obs).1.y = obs.top - ballRadius ∨
        (checkRectCollision b obs).1.y = obs.bottom + ballRadius)) := by
  constructor
  · intro hlt
    simp only [checkRectCollision, if_pos hov, if_pos hlt]
    split_ifs <;> simp
  · intro hle
    simp only [checkRectCollision, if_pos hov, if_neg (not_lt.mpr hle)]
    split_ifs <;> simp

/-- A ball overlapping only the left edge of c4Obs (minimum horizontal
penetration 7, vertical 62). -/
def c4WBall : Ball := { x := 95, y := 150, vx := 3, vy := 4 }

/-- C4 witness: the amended axis rule evaluated on the concrete
left-edge overlap. -/
theorem C4_witness :
    (checkRectCollision c4WBall c4Obs).1.y = c4WBall.y ∧
    (checkRectCollision c4WBall c4Obs).1.vy = c4WBall.vy := by
  have h := (C4_resolution_axis c4WBall c4Obs
      (by norm_num [c4WBall, c4Obs, ballRadius])).1
    (by norm_num [c4WBall, c4Obs, ballRadius, min_def])
  exact ⟨h.1, h.2.1⟩

/-! C10: the ball-ball impulse conserves the pair momentum. -/

/-- C10 confirmed: for an overlapping pair, positional separation leaves
velocities alone and the impulse adds exactly opposite terms to the two
balls, so both component sums of the pair velocity are unchanged by
resolveBallCollision. -/
theorem C10_momentum (a b : Ball)
    (hov : vecNorm (b.x - a.x) (b.y - a.y) < ballRadius * 2) :
    (resolveBallCollision a b).1.vx + (resolveBallCollision a b).2.vx =
      a.vx + b.vx ∧
    (resolveBallCollision a b).1.vy + (resolveBallCollision a b).2.vy =
      a.vy + b.vy := by
  simp only [resolveBallCollision]
  split_ifs <;> constructor <;> simp

/-- The left ball of the concrete overlapping pair. -/
def c10BallA : Ball := { x := 0, y := 0, vx := 1, vy := 2 }

/-- The right ball of the concrete overlapping pair, 12 pixels away. -/
def c10BallB : Ball := { x := 12, y := 0, vx := -3, vy := 4 }

/-- C10 witness: the conservation evaluated on the concrete pair. -/
theorem C10_witness :
    (resolveBallCollision c10BallA c10BallB).1.vx +
      (resolveBallCollision c10BallA c10BallB).2.vx = -2 ∧
    (resolveBallCollision c10BallA c10BallB).1.vy +
      (resolveBallCollision c10BallA c10BallB).2.vy = 6 := by
  have hd : vecNorm (c10BallB.x - c10BallA.x) (c10BallB.y - c10BallA.y) = 12 := by
    simp only [c10BallA, c10BallB]
    norm_num
    exact vecNorm_eval (by norm_num) (by norm_num)
  have h := C10_momentum c10BallA c10BallB (by rw [hd]; norm_num [ballRadius])
  refine ⟨h.1.trans ?_, h.2.trans ?_⟩ <;> norm_num [c10BallA, c10BallB]

/-! C3: post-resolution distance of an overlapping pair. -/

/-- The norm computation behind the symmetric separation: pushing the
two centers apart by half the overlap each along the unit normal leaves
them exactly R apart. -/
lemma separation_norm (px py qx qy D R : ℝ) (hD : D = vecNorm (qx - px) (qy - py))
    (hpos : 0 < D) (hR : 0 < R) :
    vecNorm (qx + (qx - px) / D * ((R - D) / 2) - (px - (qx - px) / D * ((R - D) / 2)))
      (qy + (qy - py) / D * ((R - D) / 2) - (py - (qy - py) / D * ((R - D) / 2))) = R := by
  have hne : D ≠ 0 := ne_of_gt hpos
  have h1 : qx + (qx - px) / D * ((R - D) / 2) - (px - (qx - px) / D * ((R - D) / 2))
      = (qx - px) * (R / D) := by field_simp; ring
  have h2 : qy + (qy - py) / D * ((R - D) / 2) - (py - (qy - py) / D * ((R - D) / 2))
      = (qy - py) * (R / D) := by field_simp; ring
  rw [h1, h2, vecNorm_mul_right, abs_of_pos (div_pos hR hpos), ← hD,
    div_mul_cancel₀ _ hne]

/-- C3 amended: when the two centers are distinct and closer than the
combined radius, the symmetric separation puts them exactly ballRadius *
2 apart; in the coincident-center case the 0.01 minimum distance only
avoids the division by zero, the computed normal is the zero vector and
the centers are not separated at all (the counterexample), so the
claimed post-resolution distance is not achieved there. -/
theorem C3_separation (a b : Ball)
    (hpos : 0 < vecNorm (b.x - a.x) (b.y - a.y))
    (hov : vecNorm (b.x - a.x) (b.y - a.y) < ballRadius * 2) :
    vecNorm ((resolveBallCollision a b).2.x - (resolveBallCollision a b).1.x)
      ((resolveBallCollision a b).2.y - (resolveBallCollision a b).1.y) =
    ballRadius * 2 := by
  have hne : ¬ (vecNorm (b.x - a.x) (b.y - a.y) = 0) := ne_of_gt hpos
  have key := separation_norm a.x a.y b.x b.y (vecNorm (b.x - a.x) (b.y - a.y))
    (ballRadius * 2) rfl hpos (by norm_num [ballRadius])
  simp only [resolveBallCollision]
  rw [if_neg hne, if_pos hov]
  split_ifs with hv
  · exact key
  · exact key

/-- A ball at the origin of the C3 scenarios. -/
def c3BallA : Ball := { x := 100, y := 100, vx := 0, vy := 0 }

/-- A second ball 12 pixels to the right, overlapping c3BallA. -/
def c3BallB : Ball := { x := 112, y := 100, vx := 0, vy := 0 }

/-- C3 witness: the amended separation evaluated on the concrete
overlapping pair at distance 12. -/
theorem C3_witness :
    vecNorm ((resolveBallCollision c3BallA c3BallB).2.x -
        (resolveBallCollision c3BallA c3BallB).1.x)
      ((resolveBallCollision c3BallA c3BallB).2.y -
        (resolveBallCollision c3BallA c3BallB).1.y) = ballRadius * 2 := by
  have hd : vecNorm (c3BallB.x - c3BallA.x) (c3BallB.y - c3BallA.y) = 12 := by
    simp only [c3BallA, c3BallB]
    norm_num
    exact vecNorm_eval (by norm_num) (by norm_num)
  exact C3_separation c3BallA c3BallB (by rw [hd]; norm_num)
    (by rw [hd]; norm_num [ballRadius])

/-- The coincident ball of the C3 counterexample. -/
def c3Ball : Ball := { x := 100, y := 100, vx := 0, vy := 0 }

/-- C3 counterexample: for two balls with exactly coincident centers the
bumped distance 0.01 makes the normal (0 / 0.01, 0 / 0.01) = (0, 0), so
both centers stay at (100, 100) and the post-resolution distance is 0,
not the combined radius 24 the claim asserts for the degenerate case. -/
theorem C3_counterexample :
    (resolveBallCollision c3Ball c3Ball).1.x = 100 ∧
    (resolveBallCollision c3Ball c3Ball).2.x = 100 ∧
    (resolveBallCollision c3Ball c3Ball).1.y = 100 ∧
    (resolveBallCollision c3Ball c3Ball).2.y = 100 ∧
    vecNorm ((resolveBallCollision c3Ball c3Ball).2.x -
        (resolveBallCollision c3Ball c3Ball).1.x)
      ((resolveBallCollision c3Ball c3Ball).2.y -
        (resolveBallCollision c3Ball c3Ball).1.y) = 0 ∧
    (0 : ℝ) ≠ ballRadius * 2 := by
  have h0 : vecNorm (c3Ball.x - c3Ball.x) (c3Ball.y - c3Ball.y) = 0 := by
    simp only [c3Ball]
    norm_num [vecNorm]
  have hres : resolveBallCollision c3Ball c3Ball = (c3Ball, c3Ball) := by
    simp only [resolveBallCollision]
    rw [if_pos h0, if_pos (by norm_num [ballRadius] : (0.01 : ℝ) < ballRadius * 2)]
    norm_num [c3Ball]
  rw [hres]
  norm_num [c3Ball, ballRadius, vecNorm_zero]

/-! C6: the cursor magnetism force law. -/

/-- A resting ball 30 pixels right of the origin. -/
def c6Ball30 : Ball := { x := 30, y := 0, vx := 0, vy := 0 }

/-- A resting ball 60 pixels right of the origin. -/
def c6Ball60 : Ball := { x := 60, y := 0, vx := 0, vy := 0 }

/-- A resting ball 200 pixels right of the origin, outside the magnetic
radius. -/
def c6BallFar : Ball := { x := 200, y := 0, vx := 0, vy := 0 }

/-- C6 counterexample: with the cursor at the origin, the velocity kick
at distance 30 has magnitude 0.192 and at distance 60 magnitude 0.144;
their products with the distances are 5.76 and 8.64, so the magnitude is
not inversely proportional to the distance (for a force proportional to
1 / d these products would agree). -/
theorem C6_counterexample :
    |(applyCursorMagnetism (0, 0) c6Ball30).vx - c6Ball30.vx| * 30 ≠
    |(applyCursorMagnetism (0, 0) c6Ball60).vx - c6Ball60.vx| * 60 := by
  have h30 : (applyCursorMagnetism (0, 0) c6Ball30).vx = -0.192 := by
    simp only [applyCursorMagnetism, c6Ball30]
    rw [if_pos (by norm_num [magneticRadius])]
    rw [show Real.sqrt ((0 - 30) * (0 - 30) + (0 - 0) * (0 - 0)) = 30 from
      sqrt_eval (by norm_num) (by norm_num)]
    norm_num [magneticRadius, magneticStrength]
  have h60 : (applyCursorMagnetism (0, 0) c6Ball60).vx = -0.144 := by
    simp only [applyCursorMagnetism, c6Ball60]
    rw [if_pos (by norm_num [magneticRadius])]
    rw [show Real.sqrt ((0 - 60) * (0 - 60) + (0 - 0) * (0 - 0)) = 60 from
      sqrt_eval (by norm_num) (by norm_num)]
    norm_num [magneticRadius, magneticStrength]
  rw [h30, h60]
  simp only [c6Ball30, c6Ball60]
  rw [show ((-0.192 : ℝ) - 0) = -(0.192) by norm_num,
    show ((-0.144 : ℝ) - 0) = -(0.144) by norm_num, abs_neg, abs_neg,
    abs_of_nonneg (by norm_num : (0:ℝ) ≤ 0.192),
    abs_of_nonneg (by norm_num : (0:ℝ) ≤ 0.144)]
  norm_num

/-- C6 amended: inside the band 25 < distanceSq < magneticRadius squared
the velocity kick is dx / d and dy / d times (1 - d / magneticRadius) *
magneticStrength, damped by 0.8, so its magnitude is 0.8 *
magneticStrength * (1 - d / magneticRadius): it decreases linearly with
the distance rather than like 1 / d; outside the band (including at or
below the squared minimum distance 25 and at or beyond the radius) the
ball is unchanged. -/
theorem C6_magnetism (mouse : ℝ × ℝ) (b : Ball) (d : ℝ)
    (hd : d = Real.sqrt ((mouse.1 - b.x) * (mouse.1 - b.x) +
      (mouse.2 - b.y) * (mouse.2 - b.y))) :
    (((mouse.1 - b.x) * (mouse.1 - b.x) + (mouse.2 - b.y) * (mouse.2 - b.y) <
        magneticRadius * magneticRadius ∧
      (mouse.1 - b.x) * (mouse.1 - b.x) + (mouse.2 - b.y) * (mouse.2 - b.y) > 25) →
      ((applyCursorMagnetism mouse b).vx =
          b.vx + (mouse.1 - b.x) / d * ((1 - d / magneticRadius) * magneticStrength) * 0.8 ∧
        (applyCursorMagnetism mouse b).vy =
          b.vy + (mouse.2 - b.y) / d * ((1 - d / magneticRadius) * magneticStrength) * 0.8 ∧
        vecNorm ((applyCursorMagnetism mouse b).vx - b.vx)
            ((applyCursorMagnetism mouse b).vy - b.vy) =
          (1 - d / magneticRadius) * magneticStrength * 0.8)) ∧
    (¬ ((mouse.1 - b.x) * (mouse.1 - b.x) + (mouse.2 - b.y) * (mouse.2 - b.y) <
        magneticRadius * magneticRadius ∧
      (mouse.1 - b.x) * (mouse.1 - b.x) + (mouse.2 - b.y) * (mouse.2 - b.y) > 25) →
      applyCursorMagnetism mouse b = b) := by
  constructor
  · intro h
    have hdpos : 0 < d := by
      rw [hd]
      exact Real.sqrt_pos.mpr (lt_trans (by norm_num) h.2)
    have hdne : d ≠ 0 := ne_of_gt hdpos
    have hdlt : d < magneticRadius := by
      have hs := Real.sqrt_lt_sqrt (le_of_lt (lt_trans (by norm_num) h.2)) h.1
      rw [Real.sqrt_mul_self (by norm_num [magneticRadius] : (0:ℝ) ≤ magneticRadius)] at hs
      rw [hd]
      exact hs
    have hc : 0 ≤ (1 - d / magneticRadius) * magneticStrength * 0.8 := by
      have : d / magneticRadius < 1 :=
        (div_lt_one (by norm_num [magneticRadius])).mpr hdlt
      have h1 : 0 ≤ 1 - d / magneticRadius := by linarith
      have h2 : (0:ℝ) ≤ magneticStrength := by norm_num [magneticStrength]
      positivity
    have hvx : (applyCursorMagnetism mouse b).vx =
        b.vx + (mouse.1 - b.x) / d * ((1 - d / magneticRadius) * magneticStrength) * 0.8 := by
      simp only [applyCursorMagnetism]
      rw [if_pos h, ← hd]
    have hvy : (applyCursorMagnetism mouse b).vy =
        b.vy + (mouse.2 - b.y) / d * ((1 - d / magneticRadius) * magneticStrength) * 0.8 := by
      simp only [applyCursorMagnetism]
      rw [if_pos h, ← hd]
    refine ⟨hvx, hvy, ?_⟩
    rw [hvx, hvy,
      show b.vx + (mouse.1 - b.x) / d * ((1 - d / magneticRadius) * magneticStrength) * 0.8 - b.vx
        = (mouse.1 - b.x) * ((1 - d / magneticRadius) * magneticStrength * 0.8 / d) by
        field_simp; ring,
      show b.vy + (mouse.2 - b.y) / d * ((1 - d / magneticRadius) * magneticStrength) * 0.8 - b.vy
        = (mouse.2 - b.y) * ((1 - d / magneticRadius) * magneticStrength * 0.8 / d) by
        field_simp; ring,
      vecNorm_mul_right, abs_of_nonneg (div_nonneg hc (le_of_lt hdpos)),
      show vecNorm (mouse.1 - b.x) (mouse.2 - b.y) = d from (hd.trans rfl).symm,
      div_mul_cancel₀ _ hdne]
  · intro hn
    simp only [applyCursorMagnetism]
    rw [if_neg hn]

/-- C6 witness: the amended force law evaluated with the cursor at the
origin, once on the in-band ball at distance 30 and once on the
out-of-band ball at distance 200. -/
theorem C6_witness :
    (applyCursorMagnetism (0, 0) c6Ball30).vx = -0.192 ∧
    applyCursorMagnetism (0, 0) c6BallFar = c6BallFar := by
  constructor
  · have h := (C6_magnetism (0, 0) c6Ball30 30 (by
      simp only [c6Ball30]
      rw [show Real.sqrt (((0:ℝ) - 30) * ((0:ℝ) - 30) + ((0:ℝ) - 0) * ((0:ℝ) - 0)) = 30 from
        sqrt_eval (by norm_num) (by norm_num)])).1
      (by norm_num [c6Ball30, magneticRadius])
    rw [h.1]
    norm_num [c6Ball30, magneticRadius, magneticStrength]
  · exact (C6_magnetism (0, 0) c6BallFar
      (Real.sqrt (((0:ℝ) - c6BallFar.x) * ((0:ℝ) - c6BallFar.x) +
        ((0:ℝ) - c6BallFar.y) * ((0:ℝ) - c6BallFar.y))) rfl).2
      (by norm_num [c6BallFar, magneticRadius])

/-! C5: the degenerate-normal fallback of the mask collision. -/

/-- A fully opaque 4 by 4 mask: every alpha byte is 255. -/
def c5Mask : Mask := { width := 4, height := 4, data := fun _ => 255 }

/-- The mask obstacle covering the viewport square from (0, 0) to (4, 4). -/
def c5Obs : MaskObstacle :=
  { left := 0, right := 4, top := 0, bottom := 4, width := 4, height := 4,
    mask := c5Mask }

/-- A ball at the center of c5Obs moving right at speed 5. -/
def c5Ball : Ball := { x := 2, y := 2, vx := 5, vy := 0 }

/-- C5 amended: when the central opacity differences vanish in both
axes and the speed is nonzero, the fallback normal is the positive
normalized velocity direction v divided by its norm, not the negated
one; reflecting about it still yields minus bounceFactor times v, the
same vector that the negated normal would give, because the mirror
formula is invariant under flipping the sign of the normal. -/
theorem C5_degenerate_normal (b : Ball) (m : Mask) (sX sY : ℤ)
    (hx : sampleOpacity m sX sY 1 0 = sampleOpacity m sX sY (-1) 0)
    (hy : sampleOpacity m sX sY 0 1 = sampleOpacity m sX sY 0 (-1))
    (hv : vecNorm b.vx b.vy ≠ 0) :
    maskNormal b m sX sY =
      (b.vx / vecNorm b.vx b.vy, b.vy / vecNorm b.vx b.vy) ∧
    (b.vx - 2 * (b.vx * (maskNormal b m sX sY).1 + b.vy * (maskNormal b m sX sY).2) *
        (maskNormal b m sX sY).1) * bounceFactor = -(bounceFactor * b.vx) ∧
    (b.vy - 2 * (b.vx * (maskNormal b m sX sY).1 + b.vy * (maskNormal b m sX sY).2) *
        (maskNormal b m sX sY).2) * bounceFactor = -(bounceFactor * b.vy) := by
  have hs0 : 0 ≤ vecNorm b.vx b.vy := vecNorm_nonneg _ _
  have hmn : maskNormal b m sX sY =
      (b.vx / vecNorm b.vx b.vy, b.vy / vecNorm b.vx b.vy) := by
    simp only [maskNormal, hx, hy, sub_self, Int.cast_zero, and_self, if_true]
    rw [jsOr, if_neg hv]
    have h1 : vecNorm (b.vx / vecNorm b.vx b.vy) (b.vy / vecNorm b.vx b.vy) = 1 := by
      rw [div_eq_mul_inv, div_eq_mul_inv, vecNorm_mul_right, abs_inv,
        abs_of_nonneg hs0, inv_mul_cancel₀ hv]
    rw [jsOr, h1, if_neg one_ne_zero, div_one, div_one]
  have hdot : b.vx * (b.vx / vecNorm b.vx b.vy) + b.vy * (b.vy / vecNorm b.vx b.vy) =
      vecNorm b.vx b.vy := by
    field_simp
    exact (vecNorm_self_mul b.vx b.vy).symm
  refine ⟨hmn, ?_, ?_⟩ <;>
  · rw [hmn]
    dsimp only
    rw [hdot]
    field_simp
    ring

/-- C5 witness: the amended fallback evaluated on the all-opaque mask
and the rightward-moving ball, giving the normal (1, 0). -/
theorem C5_witness : maskNormal c5Ball c5Mask 2 2 = (1, 0) := by
  have hsp : vecNorm c5Ball.vx c5Ball.vy = 5 := by
    simp only [c5Ball]
    exact vecNorm_eval (by norm_num) (by norm_num)
  have h := (C5_degenerate_normal c5Ball c5Mask 2 2 rfl rfl
    (by rw [hsp]; norm_num)).1
  rw [h, hsp]
  simp only [c5Ball]
  norm_num

/-- C5 counterexample: the ball at the center of the all-opaque mask is
a hit whose central differences vanish in both axes; the normal actually
used is (1, 0), the positive normalized velocity direction, while the
negated direction the claim asserts is (-1, 0). -/
theorem C5_counterexample :
    maskSampleX c5Ball c5Obs = 2 ∧ maskSampleY c5Ball c5Obs = 2 ∧
    (checkMaskCollision c5Ball c5Obs).2 = true ∧
    maskNormal c5Ball c5Mask 2 2 = (1, 0) ∧
    ((1 : ℝ), (0 : ℝ)) ≠
      (-(c5Ball.vx) / vecNorm c5Ball.vx c5Ball.vy,
       -(c5Ball.vy) / vecNorm c5Ball.vx c5Ball.vy) := by
  have hsp : vecNorm c5Ball.vx c5Ball.vy = 5 := by
    simp only [c5Ball]
    exact vecNorm_eval (by norm_num) (by norm_num)
  have hsX : maskSampleX c5Ball c5Obs = 2 := by
    simp only [maskSampleX, c5Ball, c5Obs, c5Mask]
    rw [show ((2 : ℝ) - 0) / 4 * ((4 : ℕ) : ℝ) = ((2 : ℤ) : ℝ) by push_cast; norm_num,
      Int.floor_intCast]
    decide
  have hsY : maskSampleY c5Ball c5Obs = 2 := by
    simp only [maskSampleY, c5Ball, c5Obs, c5Mask]
    rw [show ((2 : ℝ) - 0) / 4 * ((4 : ℕ) : ℝ) = ((2 : ℤ) : ℝ) by push_cast; norm_num,
      Int.floor_intCast]
    decide
  have hmn : maskNormal c5Ball c5Mask 2 2 = (1, 0) := by
    have hv5 : vecNorm (5 : ℝ) 0 = 5 := vecNorm_eval (by norm_num) (by norm_num)
    have hv1 : vecNorm ((5 : ℝ) / 5) (0 / 5) = 1 := by
      norm_num
      exact vecNorm_eval (by norm_num) (by norm_num)
    simp only [maskNormal, c5Ball]
    rw [show sampleOpacity c5Mask 2 2 1 0 = 1 from rfl,
      show sampleOpacity c5Mask 2 2 (-1) 0 = 1 from rfl,
      show sampleOpacity c5Mask 2 2 0 1 = 1 from rfl,
      show sampleOpacity c5Mask 2 2 0 (-1) = 1 from rfl]
    simp only [sub_self, Int.cast_zero, and_self, if_true]
    rw [jsOr, hv5, if_neg (by norm_num)]
    rw [jsOr, hv1, if_neg one_ne_zero]
    norm_num
  refine ⟨hsX, hsY, ?_, hmn, ?_⟩
  · simp only [checkMaskCollision, c5Ball, c5Obs]
    rw [if_neg (by norm_num [ballRadius]), if_neg (by norm_num)]
    rw [if_neg (by simp [maskAlphaAt, c5Mask, maskAlphaThreshold])]
  · rw [hsp]
    simp only [c5Ball, Prod.mk.injEq, not_and]
    intro h
    norm_num at h

/-! Evaluation lemmas for the animation step. -/

lemma applyCursorMagnetism_far (mouse : ℝ × ℝ) (b : Ball)
    (h : ¬ ((mouse.1 - b.x) * (mouse.1 - b.x) + (mouse.2 - b.y) * (mouse.2 - b.y) <
        magneticRadius * magneticRadius ∧
      (mouse.1 - b.x) * (mouse.1 - b.x) + (mouse.2 - b.y) * (mouse.2 - b.y) > 25)) :
    applyCursorMagnetism mouse b = b := by
  simp only [applyCursorMagnetism]
  rw [if_neg h]

lemma clampVelocity_of_le (b : Ball) (h : ¬ (vecNorm b.vx b.vy > maxVelocity)) :
    clampVelocity b = b := by
  simp only [clampVelocity]
  rw [if_neg h]

lemma clampVelocity_speed_le (b : Ball) :
    vecNorm (clampVelocity b).vx (clampVelocity b).vy ≤ maxVelocity := by
  by_cases h : vecNorm b.vx b.vy > maxVelocity
  · have hpos : (0 : ℝ) < vecNorm b.vx b.vy :=
      lt_trans (by norm_num [maxVelocity]) h
    simp only [clampVelocity]
    rw [if_pos h]
    dsimp only
    rw [vecNorm_mul_right,
      abs_of_nonneg (div_nonneg (by norm_num [maxVelocity]) (le_of_lt hpos)),
      div_mul_cancel₀ _ (ne_of_gt hpos)]
  · rw [clampVelocity_of_le b h]
    exact le_of_not_lt h

lemma stepBall_zero_dt (mouse : ℝ × ℝ) (b : Ball)
    (hfar : applyCursorMagnetism mouse
        { b with prevX := some b.x, prevY := some b.y } =
      { b with prevX := some b.x, prevY := some b.y })
    (hclamp : ¬ (vecNorm b.vx b.vy > maxVelocity)) :
    stepBall mouse 0 b = { b with prevX := some b.x, prevY := some b.y } := by
  simp only [stepBall, hfar, clampVelocity]
  simp only [mul_zero, add_zero, Real.rpow_zero, mul_one]
  rw [if_neg hclamp]

lemma collideObstacles_nil (b : Ball) : collideObstacles [] b = b := rfl

lemma ballBallPass_single (a : Ball) : ballBallPass [a] = [a] := by
  have hp : pairIndices 1 = [] := by decide
  simp [ballBallPass, hp]

lemma ballBallPass_pair (a b : Ball) (ha : a.active = true) (hb : b.active = true) :
    ballBallPass [a, b] =
      [(resolveBallCollision a b).1, (resolveBallCollision a b).2] := by
  have hp : pairIndices 2 = [(0, 1)] := by decide
  simp only [ballBallPass, List.length_cons, List.length_nil, Nat.zero_add,
    Nat.reduceAdd, hp, List.foldl_cons, List.foldl_nil]
  simp only [resolvePairAt, List.get?_cons_zero, List.get?_cons_succ, ha, hb,
    and_self, if_true]
  simp [List.set]

lemma wallLeft_id (b : Ball) (h : ¬ (b.x - ballRadius < 0)) : wallLeft b = b := by
  simp only [wallLeft]
  rw [if_neg h]

lemma wallRight_id (w : ℝ) (b : Ball) (h : ¬ (b.x + ballRadius > w)) :
    wallRight w b = b := by
  simp only [wallRight]
  rw [if_neg h]

lemma ceilingPass_id (b : Ball) (h : ¬ (b.y - ballRadius < 0)) :
    ceilingPass b = b := by
  simp only [ceilingPass]
  rw [if_neg h]

lemma floorPass_interior (h ct : ℝ) (b : Ball)
    (h4 : ¬ (b.y > h + 200)) (h5 : ¬ (b.y + ballRadius > h)) :
    floorPass h ct b = { b with restingStartTime := none } := by
  simp only [floorPass]
  rw [if_neg h4, if_neg h5]

lemma floorPass_offscreen (h ct : ℝ) (b : Ball) (h4 : b.y > h + 200) :
    floorPass h ct b = { b with active := false } := by
  simp only [floorPass]
  rw [if_pos h4]

lemma wallsPass_interior (w h ct : ℝ) (b : Ball)
    (h1 : ¬ (b.x - ballRadius < 0)) (h2 : ¬ (b.x + ballRadius > w))
    (h3 : ¬ (b.y - ballRadius < 0)) (h4 : ¬ (b.y > h + 200))
    (h5 : ¬ (b.y + ballRadius > h)) :
    wallsPass w h ct b = { b with restingStartTime := none } := by
  rw [wallsPass, wallLeft_id b h1, wallRight_id w b h2, ceilingPass_id b h3,
    floorPass_interior h ct b h4 h5]

lemma wallsPass_offscreen (w h ct : ℝ) (b : Ball)
    (h1 : ¬ (b.x - ballRadius < 0)) (h2 : ¬ (b.x + ballRadius > w))
    (h3 : ¬ (b.y - ballRadius < 0)) (h4 : b.y > h + 200) :
    wallsPass w h ct b = { b with active := false } := by
  rw [wallsPass, wallLeft_id b h1, wallRight_id w b h2, ceilingPass_id b h3,
    floorPass_offscreen h ct b h4]

lemma animateAll_run (st : AnimState) (ct : ℝ) (mouse : ℝ × ℝ)
    (obstacles : List Obstacle) (w h : ℝ)
    (hne : ¬ (st.balls.length = 0)) (hlt : ¬ (st.lastTime = 0)) :
    animateAll st ct mouse obstacles w h =
      (if (stepBalls st.balls (min ((ct - st.lastTime) / 16.67) 2) mouse obstacles
            w h ct).any (fun b => b.active) then
        ({ balls := stepBalls st.balls (min ((ct - st.lastTime) / 16.67) 2) mouse
            obstacles w h ct,
           animating := st.animating, lastTime := ct }, true)
      else
        ({ balls := stepBalls st.balls (min ((ct - st.lastTime) / 16.67) 2) mouse
            obstacles w h ct,
           animating := false, lastTime := ct }, false)) := by
  simp only [animateAll]
  rw [if_neg hne, if_neg hlt]

/-! C2: the speed bound across a physics step. -/

/-- The first ball of the C2 scenario: at (100, 100), moving straight
down at the configured maximum speed 35. -/
def c2BallA : Ball := { x := 100, y := 100, vx := 0, vy := 35 }

/-- The second ball of the C2 scenario: overlapping at (112, 100),
moving straight left at the maximum speed 35. -/
def c2BallB : Ball := { x := 112, y := 100, vx := -35, vy := 0 }

/-- The loop state holding the two C2 balls mid-animation. -/
def c2State : AnimState :=
  { balls := [c2BallA, c2BallB], animating := true, lastTime := 5 }

/-- c2BallA after the per-ball update with zero delta time. -/
def c2A1 : Ball :=
  { x := 100, y := 100, vx := 0, vy := 35, prevX := some 100, prevY := some 100 }

/-- c2BallB after the per-ball update with zero delta time. -/
def c2B1 : Ball :=
  { x := 112, y := 100, vx := -35, vy := 0, prevX := some 112, prevY := some 100 }

/-- c2BallA after the ball-ball impulse: its speed now exceeds 35. -/
def c2A2 : Ball :=
  { x := 94, y := 100, vx := -26.25, vy := 35, prevX := some 100, prevY := some 100 }

/-- c2BallB after the ball-ball impulse. -/
def c2B2 : Ball :=
  { x := 118, y := 100, vx := -8.75, vy := 0, prevX := some 112, prevY := some 100 }

lemma c2_stepA : stepBall (1000, 100) 0 c2BallA = c2A1 := by
  rw [stepBall_zero_dt]
  · rfl
  · apply applyCursorMagnetism_far
    norm_num [c2BallA, magneticRadius]
  · rw [show vecNorm c2BallA.vx c2BallA.vy = 35 by
      simp only [c2BallA]
      exact vecNorm_eval (by norm_num) (by norm_num)]
    norm_num [maxVelocity]

lemma c2_stepB : stepBall (1000, 100) 0 c2BallB = c2B1 := by
  rw [stepBall_zero_dt]
  · rfl
  · apply applyCursorMagnetism_far
    norm_num [c2BallB, magneticRadius]
  · rw [show vecNorm c2BallB.vx c2BallB.vy = 35 by
      simp only [c2BallB]
      exact vecNorm_eval (by norm_num) (by norm_num)]
    norm_num [maxVelocity]

lemma c2_resolve : resolveBallCollision c2A1 c2B1 = (c2A2, c2B2) := by
  simp only [resolveBallCollision, c2A1, c2B1]
  rw [show vecNorm ((112 : ℝ) - 100) ((100 : ℝ) - 100) = 12 by
    norm_num
    exact vecNorm_eval (by norm_num) (by norm_num)]
  norm_num [ballRadius, ballBounceFactor, c2A2, c2B2, Prod.mk.injEq, Ball.mk.injEq]

lemma c2_eval :
    animateAll c2State 5 (1000, 100) [] 1000 1000 =
      ({ balls := [c2A2, c2B2], animating := true, lastTime := 5 }, true) := by
  rw [animateAll_run c2State 5 (1000, 100) [] 1000 1000
    (by simp [c2State]) (by norm_num [c2State])]
  have hdt : min ((5 - c2State.lastTime) / 16.67) 2 = 0 := by
    rw [show (5 - c2State.lastTime) / 16.67 = 0 by norm_num [c2State],
      min_eq_left (by norm_num : (0 : ℝ) ≤ 2)]
  rw [hdt]
  have hstep : stepBalls c2State.balls 0 (1000, 100) [] 1000 1000 5 =
      [c2A2, c2B2] := by
    have h1 : (c2State.balls.map fun b =>
        if b.active then stepBall (1000, 100) 0 b else b) = [c2A1, c2B1] := by
      simp only [c2State, List.map_cons, List.map_nil,
        show c2BallA.active = true from rfl, show c2BallB.active = true from rfl,
        if_true, c2_stepA, c2_stepB]
    have h2 : (([c2A1, c2B1] : List Ball).map fun b =>
        if b.active then collideObstacles [] b else b) = [c2A1, c2B1] := by
      simp only [List.map_cons, List.map_nil, collideObstacles_nil, ite_self]
    have h3 : ballBallPass [c2A1, c2B1] = [c2A2, c2B2] := by
      rw [ballBallPass_pair c2A1 c2B1 rfl rfl, c2_resolve]
    have hwA : wallsPass 1000 1000 5 c2A2 = c2A2 := by
      rw [wallsPass_interior 1000 1000 5 c2A2
        (by norm_num [c2A2, ballRadius]) (by norm_num [c2A2, ballRadius])
        (by norm_num [c2A2, ballRadius]) (by norm_num [c2A2])
        (by norm_num [c2A2, ballRadius])]
      rfl
    have hwB : wallsPass 1000 1000 5 c2B2 = c2B2 := by
      rw [wallsPass_interior 1000 1000 5 c2B2
        (by norm_num [c2B2, ballRadius]) (by norm_num [c2B2, ballRadius])
        (by norm_num [c2B2, ballRadius]) (by norm_num [c2B2])
        (by norm_num [c2B2, ballRadius])]
      rfl
    have h4 : (([c2A2, c2B2] : List Ball).map fun b =>
        if b.active then wallsPass 1000 1000 5 b else b) = [c2A2, c2B2] := by
      simp only [List.map_cons, List.map_nil,
        show c2A2.active = true from rfl, show c2B2.active = true from rfl,
        if_true, hwA, hwB]
    simp only [stepBalls, h1, h2, h3, h4]
    simp [show c2A2.active = true from rfl, show c2B2.active = true from rfl]
  rw [hstep]
  rw [if_pos (by simp [show c2A2.active = true from rfl])]
  rfl

/-- C2 counterexample: after the complete physics step on the concrete
two-ball state (delta time 0, no obstacles, cursor far away), the first
ball carries velocity (-26.25, 35) whose speed exceeds maxVelocity = 35,
because the ball-ball impulse runs after the velocity clamp and nothing
clamps again before the step ends. -/
theorem C2_counterexample :
    ¬ ∀ b ∈ (animateAll c2State 5 (1000, 100) [] 1000 1000).1.balls,
        vecNorm b.vx b.vy ≤ maxVelocity := by
  intro hall
  have hmem : c2A2 ∈ (animateAll c2State 5 (1000, 100) [] 1000 1000).1.balls := by
    rw [c2_eval]
    exact List.mem_cons_self _ _
  have hle := hall c2A2 hmem
  have hgt : maxVelocity < vecNorm c2A2.vx c2A2.vy := by
    simp only [c2A2, vecNorm, maxVelocity]
    rw [show (-26.25 : ℝ) * -26.25 + 35 * 35 = 1914.0625 by norm_num]
    exact (Real.lt_sqrt (by norm_num)).mpr (by norm_num)
  exact absurd hle (not_le_of_lt hgt)

/-- C2 amended: the invariant holds at the clamp, not at the end of the
step: immediately after the per-ball update (magnetism, gravity, air
resistance, clamp, integration) every speed is at most maxVelocity,
since the clamp is the last velocity change of that phase; the ball-ball
impulse later in the same step can push a speed above the maximum, as
the counterexample shows. -/
theorem C2_speed_after_update (mouse : ℝ × ℝ) (dt : ℝ) (b : Ball) :
    vecNorm (stepBall mouse dt b).vx (stepBall mouse dt b).vy ≤ maxVelocity := by
  simp only [stepBall]
  exact clampVelocity_speed_le _

/-! C7: stopping the loop and the timing state. -/

/-- The C7 ball: resting far below the visible page, about to be
removed off-screen. -/
def c7Ball : Ball := { x := 500, y := 1500, vx := 0, vy := 0 }

/-- The loop state holding only the C7 ball, mid-animation. -/
def c7State : AnimState := { balls := [c7Ball], animating := true, lastTime := 5 }

/-- The C7 ball after the per-ball update with zero delta time. -/
def c7B1 : Ball :=
  { x := 500, y := 1500, vx := 0, vy := 0, prevX := some 500, prevY := some 1500 }

lemma c7_eval :
    animateAll c7State 5 (0, 0) [] 1000 1000 =
      ({ balls := [], animating := false, lastTime := 5 }, false) := by
  rw [animateAll_run c7State 5 (0, 0) [] 1000 1000
    (by simp [c7State]) (by norm_num [c7State])]
  have hdt : min ((5 - c7State.lastTime) / 16.67) 2 = 0 := by
    rw [show (5 - c7State.lastTime) / 16.67 = 0 by norm_num [c7State],
      min_eq_left (by norm_num : (0 : ℝ) ≤ 2)]
  rw [hdt]
  have hstep : stepBalls c7State.balls 0 (0, 0) [] 1000 1000 5 = [] := by
    have hA : stepBall (0, 0) 0 c7Ball = c7B1 := by
      rw [stepBall_zero_dt]
      · rfl
      · apply applyCursorMagnetism_far
        norm_num [c7Ball, magneticRadius]
      · rw [show vecNorm c7Ball.vx c7Ball.vy = 0 by
          simp only [c7Ball]
          exact vecNorm_zero]
        norm_num [maxVelocity]
    have h1 : (c7State.balls.map fun b =>
        if b.active then stepBall (0, 0) 0 b else b) = [c7B1] := by
      simp only [c7State, List.map_cons, List.map_nil,
        show c7Ball.active = true from rfl, if_true, hA]
    have h2 : (([c7B1] : List Ball).map fun b =>
        if b.active then collideObstacles [] b else b) = [c7B1] := by
      simp only [List.map_cons, List.map_nil, collideObstacles_nil, ite_self]
    have h3 : ballBallPass [c7B1] = [c7B1] := ballBallPass_single c7B1
    have hw : wallsPass 1000 1000 5 c7B1 = { c7B1 with active := false } := by
      rw [wallsPass_offscreen 1000 1000 5 c7B1
        (by norm_num [c7B1, ballRadius]) (by norm_num [c7B1, ballRadius])
        (by norm_num [c7B1, ballRadius]) (by norm_num [c7B1])]
    have h4 : (([c7B1] : List Ball).map fun b =>
        if b.active then wallsPass 1000 1000 5 b else b) =
        [{ c7B1 with active := false }] := by
      simp only [List.map_cons, List.map_nil,
        show c7B1.active = true from rfl, if_true, hw]
    simp only [stepBalls, h1, h2, h3, h4]
    simp
  rw [hstep]
  rw [if_neg (by simp)]

/-- C7 counterexample: the concrete step in which the only ball leaves
the page ends with no active ball; the loop requests no further frame
and clears the running flag, but lastTime keeps the current frame
timestamp 5 instead of being reset to its initial value 0 (the reset
happens only when animateAll is entered with an already empty
collection, which a stopped loop never does). -/
theorem C7_counterexample :
    (animateAll c7State 5 (0, 0) [] 1000 1000).1.balls = [] ∧
    (animateAll c7State 5 (0, 0) [] 1000 1000).2 = false ∧
    (animateAll c7State 5 (0, 0) [] 1000 1000).1.animating = false ∧
    (animateAll c7State 5 (0, 0) [] 1000 1000).1.lastTime = 5 ∧
    (5 : ℝ) ≠ 0 := by
  rw [c7_eval]
  norm_num

/-- C7 amended: when a step that started with a nonempty collection
ends with no ball remaining, no further frame is requested and the
running flag is cleared, but the last-frame timestamp is left at the
current frame time rather than reset to its initial value; the reset
branch only runs when the loop is entered with an empty collection, so
the next spawn computes its first delta from the stale timestamp
(capped at 2 frames). -/
theorem C7_loop_stop (st : AnimState) (ct : ℝ) (mouse : ℝ × ℝ)
    (obstacles : List Obstacle) (w h : ℝ)
    (hne : ¬ (st.balls.length = 0))
    (hempty : (animateAll st ct mouse obstacles w h).1.balls = []) :
    (animateAll st ct mouse obstacles w h).2 = false ∧
    (animateAll st ct mouse obstacles w h).1.animating = false ∧
    (animateAll st ct mouse obstacles w h).1.lastTime = ct := by
  simp only [animateAll, if_neg hne] at hempty ⊢
  split_ifs at hempty ⊢ with h1 h2 h3
  all_goals simp_all

/-- C7 witness: the amended statement evaluated on the concrete
one-ball state whose step removes the ball. -/
theorem C7_witness :
    (animateAll c7State 5 (0, 0) [] 1000 1000).2 = false ∧
    (animateAll c7State 5 (0, 0) [] 1000 1000).1.animating = false ∧
    (animateAll c7State 5 (0, 0) [] 1000 1000).1.lastTime = 5 :=
  C7_loop_stop c7State 5 (0, 0) [] 1000 1000 (by simp [c7State])
    (by rw [c7_eval])

end Musa
